import Mathlib

/-!
# WebApp-test: session-scoped request pipeline

A shallow embedding of `cmd/web/forms.go`, `cmd/web/handlers.go` and
`cmd/web/routes.go`.

Conventions of the embedding:

* Go strings are Lean `String`s; `[]byte` streams are `List UInt8`.
* Go maps that are only ever read through a key lookup (`url.Values`, the
  session's value map, the file system) are functions from keys; the `errors`
  map of a form, whose `len` is observed, is an association list with unique
  keys.
* Handlers are state passing functions on a `World`: the request's session
  data, the repository state, the file system, and a trace of the calls made
  on the session manager and on the repository.
* Everything that lives outside the repository (the repository
  implementation, the session manager's token issuing, `PasswordMatches`,
  `filepath.Join`, `os.Create`, `io.Copy`, the request parsers of `net/http`)
  is a field of the environment: a handler's behaviour is stated for every
  such environment.
-/

namespace WebApp

/-! ## Data model (`webapp/pkg/data`) -/

/-- The `data.User` record. -/
structure User where
  ID : Int
  FirstName : String
  LastName : String
  Email : String
  Password : String
  IsAdmin : Int
  CreatedAt : Int
  UpdatedAt : Int
  deriving DecidableEq, Repr

/-- The `data.UserImage` record. -/
structure UserImage where
  ID : Int
  UserID : Int
  FileName : String
  CreatedAt : Int
  UpdatedAt : Int
  deriving DecidableEq, Repr

/-! ## `net/url`, `strings`, `unicode` -/

/-- The type `url.Values`, a `map[string][]string`; the nil map is `fun _ => []`. -/
structure Values where
  m : String → List String

/-- The nil `url.Values`. -/
def Values.nil : Values := ⟨fun _ => []⟩

/-- `Values.Get`: the first value associated with the key, or `""`. -/
def Values.Get (v : Values) (key : String) : String :=
  match v.m key with
  | [] => ""
  | x :: _ => x

/-- `Values.Add`: appends the value to the key's list. -/
def Values.Add (v : Values) (key value : String) : Values :=
  ⟨fun k => if k = key then v.m k ++ [value] else v.m k⟩

/-- Go's `unicode.IsSpace`: the Latin-1 switch, then the `White_Space` table. -/
def isSpace (c : Char) : Bool :=
  let n := c.toNat
  if n ≤ 0xFF then
    n == 0x09 || n == 0x0A || n == 0x0B || n == 0x0C || n == 0x0D || n == 0x20
      || n == 0x85 || n == 0xA0
  else
    n == 0x1680 || (0x2000 ≤ n && n ≤ 0x200A) || n == 0x2028 || n == 0x2029
      || n == 0x202F || n == 0x205F || n == 0x3000

/-- Go's `strings.TrimSpace`: drops leading and trailing white space. -/
def TrimSpace (s : String) : String :=
  String.mk ((s.data.dropWhile isSpace).reverse.dropWhile isSpace).reverse

/-! ## `cmd/web/forms.go` -/

/-- The type `errors`, a `map[string][]string` kept with unique keys. -/
abbrev errors := List (String × List String)

/-- `errors.Get`: the first message recorded for the field, or `""`. -/
def errors.Get (e : errors) (field : String) : String :=
  match e.lookup field with
  | some (x :: _) => x
  | _ => ""

/-- `errors.Add`: `e[field] = append(e[field], msg)`. -/
def errors.Add : errors → String → String → errors
  | [], field, msg => [(field, [msg])]
  | (k, v) :: rest, field, msg =>
    if k = field then (k, v ++ [msg]) :: rest else (k, v) :: errors.Add rest field msg

/-- The `Form` struct. -/
structure Form where
  Data : Values
  Errors : errors

/-- `NewForm`: the posted data and an empty error map. -/
def NewForm (data : Values) : Form :=
  { Data := data, Errors := [] }

/-- `Form.Has`. -/
def Form.Has (f : Form) (field : String) : Bool :=
  if f.Data.Get field = "" then false else true

/-- One iteration of the loop of `Form.Required`. -/
def Form.requireField (f : Form) (field : String) : Form :=
  if TrimSpace (f.Data.Get field) = "" then
    { f with Errors := f.Errors.Add field "This field cannot be blank" }
  else f

/-- `Form.Required`: the variadic arguments are the list `fields`. -/
def Form.Required (f : Form) (fields : List String) : Form :=
  fields.foldl Form.requireField f

/-- `Form.Check`. -/
def Form.Check (f : Form) (ok : Bool) (key message : String) : Form :=
  if !ok then { f with Errors := f.Errors.Add key message } else f

/-- `Form.Valid`: `len(f.Errors) == 0`. -/
def Form.Valid (f : Form) : Bool :=
  f.Errors.length == 0

/-! ## Session data (contract of `scs.SessionManager`) -/

/-- A value stored in a session slot. A `user` stands for a `data.User` as well as for a
`*data.User`: the store serialises slot values, which flattens the pointer. -/
inductive SVal where
  | str (s : String)
  | user (u : User)
  deriving DecidableEq, Repr

/-- The session data bound to a request context: the token and the named slots. -/
structure Session where
  token : String
  values : String → Option SVal

/-- `Session.Exists`. -/
def Session.Exists (s : Session) (key : String) : Bool :=
  (s.values key).isSome

/-- `Session.Get`: the slot's value, `none` standing for Go's `nil`. -/
def Session.Get (s : Session) (key : String) : Option SVal :=
  s.values key

/-- `Session.Put`. -/
def Session.Put (s : Session) (key : String) (v : SVal) : Session :=
  { s with values := fun k => if k = key then some v else s.values k }

/-- `Session.Remove`. -/
def Session.Remove (s : Session) (key : String) : Session :=
  { s with values := fun k => if k = key then none else s.values k }

/-- `Session.PopString`: reads the slot as a string (`""` when it is absent or holds
something else) and deletes it. -/
def Session.PopString (s : Session) (key : String) : String × Session :=
  (match s.values key with
   | some (SVal.str x) => x
   | _ => "",
   s.Remove key)

/-- `Session.RenewToken`, given what the store issued: on success the token is replaced
and the data is carried forward, on failure the session data is untouched. -/
def Session.RenewToken (s : Session) (issued : Except String String) : Session :=
  match issued with
  | .ok t => { s with token := t }
  | .error _ => s

/-! ## `net/http` -/

/-- What a handler wrote to the `http.ResponseWriter`. -/
structure Response where
  Code : Nat
  Location : Option String
  Body : String
  deriving DecidableEq, Repr

namespace http

/-- `http.StatusOK`. -/
def StatusOK : Nat := 200

/-- `http.StatusSeeOther`. -/
def StatusSeeOther : Nat := 303

/-- `http.StatusTemporaryRedirect`. -/
def StatusTemporaryRedirect : Nat := 307

/-- `http.StatusBadRequest`. -/
def StatusBadRequest : Nat := 400

/-- `http.StatusNotFound`. -/
def StatusNotFound : Nat := 404

/-- `http.StatusMethodNotAllowed`. -/
def StatusMethodNotAllowed : Nat := 405

/-- `http.StatusInternalServerError`. -/
def StatusInternalServerError : Nat := 500

/-- `http.Error`: the status code and the message followed by a newline. -/
def Error (msg : String) (code : Nat) : Response :=
  { Code := code, Location := none, Body := msg ++ "\n" }

/-- `http.Redirect` to a rooted path: the `Location` header and the status code
(the short HTML body written for GET requests is not modelled). -/
def Redirect (url : String) (code : Nat) : Response :=
  { Code := code, Location := some url, Body := "" }

end http

/-- How a handler ends: with a response, or in a Go run-time panic. -/
inductive Outcome where
  | response (r : Response)
  | panic (msg : String)
  deriving DecidableEq, Repr

/-! ## Multipart forms and the file system -/

/-- A byte stream. -/
abbrev Bytes := List UInt8

/-- Go's `filepath.Base` for slash-separated paths: `"."` for the empty path, else the
last element once trailing slashes are stripped, `"/"` when nothing is left. -/
def filepath.Base (path : String) : String :=
  if path = "" then "."
  else
    let stripped := (path.data.reverse.dropWhile fun c => c == '/').reverse
    let last := (stripped.reverse.takeWhile fun c => c != '/').reverse
    if last = [] then "/" else String.mk last

/-- The method `FileName` of `multipart.Part`, applied to the `filename` parameter of the
part's `Content-Disposition` header: directory information is dropped. -/
def multipart.FileName (filename : String) : String :=
  if filename = "" then "" else filepath.Base filename

/-- A `multipart.FileHeader`: the file name as the client sent it in the part's
`Content-Disposition` header, and the outcome of `header.Open()`, the part's bytes or an
error. -/
structure FileHeader where
  sentFilename : String
  Open : Except String Bytes

/-- The field `Filename` of a `multipart.FileHeader`, which `mime/multipart` fills with
`Part.FileName()`: the last path element of the file name the client sent, not that name
as sent. -/
def FileHeader.Filename (header : FileHeader) : String :=
  multipart.FileName header.sentFilename

/-- A `multipart.Form`: the entries of the map `File` in the order in which `range`
visits them in this run. -/
structure MultipartForm where
  File : List (String × List FileHeader)

/-- The file system: the content of the file at each path, if there is one. -/
abbrev FS := String → Option Bytes

/-- Writing a file. -/
def FS.write (fs : FS) (path : String) (content : Bytes) : FS :=
  fun p => if p = path then some content else fs p

/-- What `r.ParseForm()` fills in: `r.Form` (body and query parameters) and `r.PostForm`
(body parameters only). -/
structure ParsedForm where
  Form : Values
  PostForm : Values

/-- The request as the handlers see it: method, path, and the outcomes of `r.ParseForm()`
and of `r.ParseMultipartForm(maxMemory)`. -/
structure Request where
  Method : String
  Path : String
  ParseForm : Except String ParsedForm
  ParseMultipartForm : Nat → Except String MultipartForm

/-! ## The application and its environment -/

/-- The part of the interface `repository.DatabaseRepo` that the handlers use, over a
repository state `σ`. -/
structure DatabaseRepo (σ : Type) where
  GetUser : σ → Int → Except String User × σ
  GetUserByEmail : σ → String → Except String User × σ
  InsertUserImage : σ → UserImage → Except String Int × σ

/-- The `application` struct (`DB`) together with the library behaviour the handlers
depend on: `User.PasswordMatches` (a `(bool, error)` pair), the token the session store
issues on renewal of a given token, or its error, `filepath.Join`, and the failures of
`os.Create` and `io.Copy`
(`copyErr path content = some (n, e)`: the copy fails with `e` after `n` bytes). -/
structure application (σ : Type) where
  DB : DatabaseRepo σ
  PasswordMatches : User → String → Bool × Option String
  issueToken : String → Except String String
  Join : String → String → String
  createErr : String → Option String
  copyErr : String → Bytes → Option (Nat × String)

/-- A call made on the session manager or on the repository. -/
inductive Call where
  | Put (key : String) (v : SVal)
  | PopString (key : String)
  | RenewToken
  | GetUser (id : Int)
  | GetUserByEmail (email : String)
  | InsertUserImage (img : UserImage)
  deriving DecidableEq, Repr

/-- The state a handler runs in. -/
structure World (σ : Type) where
  session : Session
  db : σ
  fs : FS
  trace : List Call

variable {σ : Type}

/-- `app.Session.Put(r.Context(), key, v)`. -/
def World.Put (w : World σ) (key : String) (v : SVal) : World σ :=
  { w with session := w.session.Put key v, trace := w.trace ++ [Call.Put key v] }

/-- `app.Session.PopString(r.Context(), key)`. -/
def World.PopString (w : World σ) (key : String) : String × World σ :=
  ((w.session.PopString key).1,
   { w with session := (w.session.PopString key).2, trace := w.trace ++ [Call.PopString key] })

/-- `app.Session.RenewToken(r.Context())`, whose error the caller drops. -/
def World.RenewToken (app : application σ) (w : World σ) : World σ :=
  { w with session := w.session.RenewToken (app.issueToken w.session.token),
           trace := w.trace ++ [Call.RenewToken] }

/-- `app.DB.GetUserByEmail(email)`. -/
def World.GetUserByEmail (app : application σ) (w : World σ) (email : String) :
    Except String User × World σ :=
  ((app.DB.GetUserByEmail w.db email).1,
   { w with db := (app.DB.GetUserByEmail w.db email).2,
            trace := w.trace ++ [Call.GetUserByEmail email] })

/-- `app.DB.GetUser(id)`. -/
def World.GetUser (app : application σ) (w : World σ) (id : Int) :
    Except String User × World σ :=
  ((app.DB.GetUser w.db id).1,
   { w with db := (app.DB.GetUser w.db id).2, trace := w.trace ++ [Call.GetUser id] })

/-- `app.DB.InsertUserImage(img)`. -/
def World.InsertUserImage (app : application σ) (w : World σ) (img : UserImage) :
    Except String Int × World σ :=
  ((app.DB.InsertUserImage w.db img).1,
   { w with db := (app.DB.InsertUserImage w.db img).2,
            trace := w.trace ++ [Call.InsertUserImage img] })

/-- A handler. -/
abbrev Handler (σ : Type) := Request → World σ → Outcome × World σ

/-! ## `cmd/web/handlers.go`: the login flow -/

/-- `application.authenticate`. -/
def authenticate (app : application σ) (w : World σ) (user : User) (password : String) :
    Bool × World σ :=
  match app.PasswordMatches user password with
  | (valid, err) =>
    if err.isSome || !valid then (false, w)
    else (true, w.Put "user" (SVal.user user))

/-- `application.Login`. The validation reads `r.PostForm`; the email and the password
passed on are read from `r.Form`. -/
def Login (app : application σ) : Handler σ := fun r w =>
  match r.ParseForm with
  | .error _ => (Outcome.response (http.Error "bad request" http.StatusBadRequest), w)
  | .ok pf =>
    let form := (NewForm pf.PostForm).Required ["email", "password"]
    if !form.Valid then
      (Outcome.response (http.Redirect "/" http.StatusSeeOther),
       w.Put "error" (SVal.str "invalid login credentials"))
    else
      let email := pf.Form.Get "email"
      let password := pf.Form.Get "password"
      match w.GetUserByEmail app email with
      | (.error _, w1) =>
        (Outcome.response (http.Redirect "/" http.StatusSeeOther),
         w1.Put "error" (SVal.str "invalid login"))
      | (.ok user, w1) =>
        match authenticate app w1 user password with
        | (false, w2) =>
          (Outcome.response (http.Redirect "/" http.StatusSeeOther),
           w2.Put "error" (SVal.str "invalid login"))
        | (true, w2) =>
          let w3 := w2.RenewToken app
          (Outcome.response (http.Redirect "/user/profile" http.StatusSeeOther),
           w3.Put "flash message" (SVal.str "successfully logged in"))

/-! ## `cmd/web/handlers.go`: the upload ingester -/

/-- The package variable `uploadPath`. -/
def uploadPath : String := "./static/img"

/-- The `UploadedFile` struct. -/
structure UploadedFile where
  OriginalFileName : String
  FileSize : Int
  deriving DecidableEq, Repr

/-- The function literal called on each header in `UploadFiles`: it opens the part,
creates (truncating) the destination file, copies the bytes, and returns the extended
sequence, or `nil` and the error. A failed copy leaves the bytes written so far. -/
def uploadOne (app : application σ) (uploadDirectory : String) (header : FileHeader)
    (uploadedFiles : List UploadedFile) (fs : FS) : (List UploadedFile × Option String) × FS :=
  match header.Open with
  | .error err => (([], some err), fs)
  | .ok infile =>
    let dest := app.Join uploadDirectory header.Filename
    match app.createErr dest with
    | some err => (([], some err), fs)
    | none =>
      match app.copyErr dest infile with
      | some (n, err) => (([], some err), FS.write fs dest (infile.take n))
      | none =>
        ((uploadedFiles ++ [{ OriginalFileName := header.Filename, FileSize := infile.length }],
          none),
         FS.write fs dest infile)

/-- The inner loop `for _, header := range fileHeaders`: the closure's results are
assigned to `uploadedFiles, err`, and a non-nil `err` returns them at once. -/
def rangeHeaders (app : application σ) (uploadDirectory : String) :
    List FileHeader → List UploadedFile → FS → (List UploadedFile × Option String) × FS
  | [], uploadedFiles, fs => ((uploadedFiles, none), fs)
  | header :: rest, uploadedFiles, fs =>
    match uploadOne app uploadDirectory header uploadedFiles fs with
    | ((uploadedFiles1, some err), fs1) => ((uploadedFiles1, some err), fs1)
    | ((uploadedFiles1, none), fs1) => rangeHeaders app uploadDirectory rest uploadedFiles1 fs1

/-- The outer loop `for _, fileHeaders := range r.MultipartForm.File`. -/
def rangeFields (app : application σ) (uploadDirectory : String) :
    List (String × List FileHeader) → List UploadedFile → FS →
      (List UploadedFile × Option String) × FS
  | [], uploadedFiles, fs => ((uploadedFiles, none), fs)
  | (_, fileHeaders) :: rest, uploadedFiles, fs =>
    match rangeHeaders app uploadDirectory fileHeaders uploadedFiles fs with
    | ((uploadedFiles1, some err), fs1) => ((uploadedFiles1, some err), fs1)
    | ((uploadedFiles1, none), fs1) => rangeFields app uploadDirectory rest uploadedFiles1 fs1

/-- `application.UploadFiles`: the returned pair `([]*UploadedFile, error)` and the file
system it leaves. -/
def UploadFiles (app : application σ) (r : Request) (uploadDirectory : String) (fs : FS) :
    (List UploadedFile × Option String) × FS :=
  match r.ParseMultipartForm (1024 * 1024 * 5) with
  | .error err => (([], some (err ++ ": the file is to big for upload. Max size is 5Mb")), fs)
  | .ok form => rangeFields app uploadDirectory form.File [] fs

/-- `application.UploadProfilePic`. The type assertion on the `"user"` slot and the index
`files[0]` panic when the slot holds no user, respectively when `files` is empty. -/
def UploadProfilePic (app : application σ) : Handler σ := fun r w =>
  match UploadFiles app r uploadPath w.fs with
  | ((_, some err), fs1) =>
    (Outcome.response (http.Error err http.StatusBadRequest), { w with fs := fs1 })
  | ((files, none), fs1) =>
    let w1 : World σ := { w with fs := fs1 }
    match w1.session.Get "user" with
    | some (SVal.user user) =>
      match files with
      | [] => (Outcome.panic "runtime error: index out of range [0] with length 0", w1)
      | file0 :: _ =>
        let userImage : UserImage :=
          { ID := 0, UserID := user.ID, FileName := file0.OriginalFileName,
            CreatedAt := 0, UpdatedAt := 0 }
        match w1.InsertUserImage app userImage with
        | (.error err, w2) =>
          (Outcome.response (http.Error err http.StatusBadRequest), w2)
        | (.ok _, w2) =>
          match w2.GetUser app user.ID with
          | (.error err, w3) =>
            (Outcome.response (http.Error err http.StatusBadRequest), w3)
          | (.ok updatedUser, w3) =>
            (Outcome.response (http.Redirect "/user/profile" http.StatusSeeOther),
             w3.Put "user" (SVal.user updatedUser))
    | _ => (Outcome.panic "interface conversion: interface is not data.User", w1)

/-- The parts of a multipart form in the order in which `UploadFiles` meets them. -/
def MultipartForm.parts (form : MultipartForm) : List FileHeader :=
  form.File.flatMap Prod.snd

/-- The destination path of a part. -/
def destination (app : application σ) (uploadDirectory : String) (header : FileHeader) :
    String :=
  app.Join uploadDirectory header.Filename

/-- The error on which the ingestion of a part fails: from `header.Open`, else from
`os.Create`, else from `io.Copy`; `none` when the part is ingested. -/
def partError (app : application σ) (uploadDirectory : String) (header : FileHeader) :
    Option String :=
  match header.Open with
  | .error err => some err
  | .ok infile =>
    match app.createErr (destination app uploadDirectory header) with
    | some err => some err
    | none => (app.copyErr (destination app uploadDirectory header) infile).map Prod.snd

/-- The bytes of a part (none when it does not open). -/
def FileHeader.content (header : FileHeader) : Bytes :=
  match header.Open with
  | .error _ => []
  | .ok infile => infile

/-- The file system after the parts have been written one after the other. -/
def writeParts (app : application σ) (uploadDirectory : String) (parts : List FileHeader)
    (fs : FS) : FS :=
  parts.foldl
    (fun fs header => FS.write fs (destination app uploadDirectory header) header.content) fs

/-! ## `cmd/web/routes.go` and the auth gate -/

/-- Modelled from the spec: `application.auth`, the middleware of `cmd/web/middleware.go`,
a file of this repository that is not among the sources. The request is authenticated iff
the session's `"user"` slot is present and holds a user; otherwise the gate answers with
a temporary redirect to the landing path and does not call the next handler. -/
def auth (next : Handler σ) : Handler σ := fun r w =>
  match w.session.Get "user" with
  | some (SVal.user _) => next r w
  | _ => (Outcome.response (http.Redirect "/" http.StatusTemporaryRedirect), w)

/-- The handlers that `routes` registers. -/
inductive HandlerName where
  | Home
  | Login
  | Profile
  | UploadProfilePic
  | fileServer
  deriving DecidableEq, Repr

/-- The middlewares that `routes` attaches to a group of routes. -/
inductive Middleware where
  | auth
  deriving DecidableEq, Repr

/-- A registered route: method (`"*"` for `Handle`), pattern, the middlewares of the
groups it is registered in, and the handler. -/
structure Route where
  method : String
  pattern : String
  middlewares : List Middleware
  handler : HandlerName
  deriving DecidableEq, Repr

/-- `mux.Route(pattern, fn)`: the routes registered by `fn` mounted under `pattern`, behind
the middlewares that `fn` attached with `mux.Use`. -/
def Route.mount (pattern : String) (uses : List Middleware) (sub : List Route) : List Route :=
  sub.map fun rt =>
    { rt with pattern := pattern ++ rt.pattern, middlewares := uses ++ rt.middlewares }

/-- `application.routes` (the three middlewares of the whole mux, `Recoverer`,
`addIPToContext` and `LoadAndSave`, wrap every route alike and are left out). -/
def routes : List Route :=
  [ { method := "GET", pattern := "/", middlewares := [], handler := HandlerName.Home },
    { method := "POST", pattern := "/login", middlewares := [], handler := HandlerName.Login } ]
  ++ Route.mount "/user" [Middleware.auth]
    [ { method := "GET", pattern := "/profile", middlewares := [],
        handler := HandlerName.Profile },
      { method := "POST", pattern := "/upload-profile-pic", middlewares := [],
        handler := HandlerName.UploadProfilePic } ]
  ++ [ { method := "*", pattern := "/static/*", middlewares := [],
         handler := HandlerName.fileServer } ]

/-- A middleware applied to a handler. -/
def Middleware.wrap : Middleware → Handler σ → Handler σ
  | Middleware.auth, next => WebApp.auth next

/-- The handler that serves a route: its handler behind its middlewares, outermost
first. -/
def Route.serve (handlers : HandlerName → Handler σ) (rt : Route) : Handler σ :=
  rt.middlewares.foldr Middleware.wrap (handlers rt.handler)

/-- A route is under the guarded subtree when its pattern starts with `/user/`. -/
def Route.underUser (rt : Route) : Bool :=
  "/user/".data.isPrefixOf rt.pattern.data

/-- Whether a request is for a route: the methods agree, and the path is the pattern, or
starts with it when the pattern ends in the wildcard `*`. -/
def Route.accepts (rt : Route) (r : Request) : Bool :=
  (rt.method == "*" || rt.method == r.Method) &&
    (match rt.pattern.data.reverse with
     | '*' :: rest => rest.reverse.isPrefixOf r.Path.data
     | _ => rt.pattern == r.Path)

/-- Whether the path of a request is the one of a route, whatever the method. -/
def Route.acceptsPath (rt : Route) (r : Request) : Bool :=
  match rt.pattern.data.reverse with
  | '*' :: rest => rest.reverse.isPrefixOf r.Path.data
  | _ => rt.pattern == r.Path

/-- The router's answer to a request that no route accepts: 405 with an empty body when
a route has the path under another method, else 404. -/
def noRoute : Handler σ := fun r w =>
  if routes.any (fun rt => rt.acceptsPath r) then
    (Outcome.response { Code := http.StatusMethodNotAllowed, Location := none, Body := "" }, w)
  else (Outcome.response (http.Error "404 page not found" http.StatusNotFound), w)

/-- Whether the path of a request falls under the mount point of the `/user` group:
`/user` itself or a path below it. -/
def underUserMount (r : Request) : Bool :=
  r.Path == "/user" || "/user/".data.isPrefixOf r.Path.data

/-- The mux: the first registered route that accepts the request serves it. A request
that no route accepts gets the router's answer, which under the mount point of the
`/user` group comes from the group's router, behind the group's middleware. -/
def ServeHTTP (handlers : HandlerName → Handler σ) : Handler σ := fun r w =>
  match routes.find? (fun rt => rt.accepts r) with
  | some rt => rt.serve handlers r w
  | none => if underUserMount r then auth noRoute r w else noRoute r w

/-- The calls made since an earlier state of the world. -/
def World.callsSince (after before : World σ) : List Call :=
  after.trace.drop before.trace.length

/-! ## `cmd/web/handlers.go`: rendering -/

/-- `Session.GetString`: the slot's value as a string, `""` when the slot is absent or
holds something else. -/
def Session.GetString (s : Session) (key : String) : String :=
  match s.values key with
  | some (SVal.str x) => x
  | _ => ""

/-- The zero value of `data.User`. -/
def User.zero : User :=
  { ID := 0, FirstName := "", LastName := "", Email := "", Password := "", IsAdmin := 0,
    CreatedAt := 0, UpdatedAt := 0 }

/-- The `TemplateData` struct (the values of `Data` are kept as strings). -/
structure TemplateData where
  IP : String
  Data : List (String × String)
  Error : String
  Flash : String
  User : User
  deriving DecidableEq, Repr

/-- The value of `&TemplateData{}`. -/
def TemplateData.empty : TemplateData :=
  { IP := "", Data := [], Error := "", Flash := "", User := User.zero }

/-- The environment of `render`: the error of `template.ParseFS` for a page, if it has
one, what `Execute` produces for a page and its data (the body, or an error raised before
anything is written), and `application.ipFromContext`, which reads the caller identity
that the IP middleware attached to the request. -/
structure Templates where
  ParseFS : String → Option String
  Execute : String → TemplateData → Except String String
  ipFromContext : Request → String

/-- What a call of `render` leaves: the error it returns, what it wrote, the template
data it filled in, and the world. -/
structure Rendered (σ : Type) where
  err : Option String
  outcome : Outcome
  td : TemplateData
  world : World σ

/-- The end of `render`: `parsedTemplate.Execute(w, td)`. -/
def execute (tpl : Templates) (t : String) (td : TemplateData) (w : World σ) : Rendered σ :=
  match tpl.Execute t td with
  | .error err =>
    { err := some err,
      outcome := Outcome.response
        (http.Error "Internal server error" http.StatusInternalServerError),
      td := td, world := w }
  | .ok body =>
    { err := none,
      outcome := Outcome.response { Code := http.StatusOK, Location := none, Body := body },
      td := td, world := w }

/-- `application.render`. The type assertion on the `"user"` slot panics when the slot
holds something that is not a user. -/
def render (tpl : Templates) (r : Request) (w : World σ) (t : String) (td : TemplateData) :
    Rendered σ :=
  match tpl.ParseFS t with
  | some err =>
    { err := some err,
      outcome := Outcome.response (http.Error "rendering bad request" http.StatusBadRequest),
      td := td, world := w }
  | none =>
    let td1 := { td with IP := tpl.ipFromContext r }
    let td2 := { td1 with Error := (w.PopString "error").1 }
    let w1 := (w.PopString "error").2
    let td3 := { td2 with Flash := (w1.PopString "flash").1 }
    let w2 := (w1.PopString "flash").2
    if w2.session.Exists "user" then
      match w2.session.Get "user" with
      | some (SVal.user u) => execute tpl t { td3 with User := u } w2
      | _ =>
        { err := none,
          outcome := Outcome.panic "interface conversion: interface is not data.User",
          td := td3, world := w2 }
    else execute tpl t td3 w2

/-- `application.Profile`. -/
def Profile (tpl : Templates) : Handler σ := fun r w =>
  ((render tpl r w "profile.page.gohtml" TemplateData.empty).outcome,
   (render tpl r w "profile.page.gohtml" TemplateData.empty).world)

/-! ## Sequences of calls on a form -/

/-- A call of `Required` or of `Check` on a form. -/
inductive FormCall where
  | Required (fields : List String)
  | Check (ok : Bool) (key message : String)

/-- The form after a call. -/
def Form.call (f : Form) : FormCall → Form
  | FormCall.Required fields => f.Required fields
  | FormCall.Check ok key message => f.Check ok key message

/-- The form after a sequence of calls. -/
def Form.calls (f : Form) (cs : List FormCall) : Form :=
  cs.foldl Form.call f

/-- Whether a call finds nothing to object to in the data: a `Required` names only fields
whose first value is not blank after trimming (a missing field has the first value `""`),
a `Check` is made with `ok = true`. -/
def FormCall.passes (data : Values) : FormCall → Bool
  | FormCall.Required fields => fields.all fun field => TrimSpace (data.Get field) != ""
  | FormCall.Check ok _ _ => ok

/-! ## A sample environment -/

/-- The administrator of the test data. -/
def sampleAdmin : User :=
  { ID := 1, FirstName := "Admin", LastName := "User", Email := "admin@example.com",
    Password := "secret", IsAdmin := 1, CreatedAt := 0, UpdatedAt := 0 }

/-- The lookup by id of the sample repository. -/
def sampleGetUser (db : List UserImage) (id : Int) : Except String User × List UserImage :=
  (if id = 1 then .ok sampleAdmin else .error "sql: no rows in result set", db)

/-- The lookup by email of the sample repository. -/
def sampleGetUserByEmail (db : List UserImage) (email : String) :
    Except String User × List UserImage :=
  (if email = "admin@example.com" then .ok sampleAdmin
   else .error "sql: no rows in result set", db)

/-- The image insertion of the sample repository. -/
def sampleInsertUserImage (db : List UserImage) (img : UserImage) :
    Except String Int × List UserImage :=
  if img.UserID = 1 then (.ok (db.length + 1), db ++ [img])
  else (.error "violates foreign key constraint", db)

/-- An in-memory repository that knows `sampleAdmin`; its state is the list of the images
inserted so far. -/
def sampleRepo : DatabaseRepo (List UserImage) :=
  { GetUser := sampleGetUser
    GetUserByEmail := sampleGetUserByEmail
    InsertUserImage := sampleInsertUserImage }

/-- A sample application over `sampleRepo`: passwords are compared as plain text, a renewed
token is the old one with a mark appended, and no file operation fails. -/
def sampleApp : application (List UserImage) :=
  { DB := sampleRepo
    PasswordMatches := fun u password => (u.Password == password, none)
    issueToken := fun t => .ok (t ++ "+")
    Join := fun dir name => dir ++ "/" ++ name
    createErr := fun _ => none
    copyErr := fun _ _ => none }

/-- A fresh session. -/
def sampleSession : Session :=
  { token := "t0", values := fun _ => none }

/-- A world with a fresh session, an empty repository state and an empty file system. -/
def sampleWorld : World (List UserImage) :=
  { session := sampleSession, db := [], fs := fun _ => none, trace := [] }

/-- The form of a login request that posts the given email and password. -/
def loginForm (email password : String) : ParsedForm :=
  { Form := (Values.nil.Add "email" email).Add "password" password
    PostForm := (Values.nil.Add "email" email).Add "password" password }

/-- A login request that posts the given email and password. -/
def loginRequest (email password : String) : Request :=
  { Method := "POST", Path := "/login"
    ParseForm := .ok (loginForm email password)
    ParseMultipartForm := fun _ => .error "request Content-Type isn't multipart/form-data" }

/-- A request whose body does not parse. -/
def malformedRequest : Request :=
  { Method := "POST", Path := "/login"
    ParseForm := .error "invalid URL escape"
    ParseMultipartForm := fun _ => .error "invalid URL escape" }

/-- A request for the profile page. -/
def profileRequest : Request :=
  { Method := "GET", Path := "/user/profile"
    ParseForm := .ok { Form := Values.nil, PostForm := Values.nil }
    ParseMultipartForm := fun _ => .error "request Content-Type isn't multipart/form-data" }

/-- An upload request whose multipart body holds the given file parts in the field
`file` and parses under any ceiling. -/
def uploadRequest (files : List FileHeader) : Request :=
  { Method := "POST", Path := "/user/upload-profile-pic"
    ParseForm := .ok { Form := Values.nil, PostForm := Values.nil }
    ParseMultipartForm := fun _ => .ok { File := [("file", files)] } }

/-- An upload request whose multipart body does not parse. -/
def oversizedRequest : Request :=
  { Method := "POST", Path := "/user/upload-profile-pic"
    ParseForm := .ok { Form := Values.nil, PostForm := Values.nil }
    ParseMultipartForm := fun _ => .error "multipart: message too large" }

/-- A file part, sent under the given file name, that opens. -/
def filePart (name : String) (content : Bytes) : FileHeader :=
  { sentFilename := name, Open := .ok content }

/-- A file part, sent under the given file name, that does not open. -/
def brokenPart (name : String) : FileHeader :=
  { sentFilename := name, Open := .error "open: no such file or directory" }

/-- An application like `sampleApp` in whose upload directory `thumbs` is a directory, so
that no file of that name can be created. -/
def thumbsApp : application (List UserImage) :=
  { sampleApp with
    createErr := fun path =>
      if path = "./static/img/thumbs" then some "open ./static/img/thumbs: is a directory"
      else none }

/-- A world whose session holds `sampleAdmin` in the `"user"` slot. -/
def loggedInWorld : World (List UserImage) :=
  { sampleWorld with session := sampleSession.Put "user" (SVal.user sampleAdmin) }

/-- An upload request whose multipart body parses and holds no file part. -/
def emptyUploadRequest : Request :=
  { Method := "POST", Path := "/user/upload-profile-pic"
    ParseForm := .ok { Form := Values.nil, PostForm := Values.nil }
    ParseMultipartForm := fun _ => .ok { File := [] } }

/-- Templates that all parse, except `bad.page.gohtml`, and whose execution writes the
error and the flash of the template data. -/
def sampleTemplates : Templates :=
  { ParseFS := fun t => if t = "bad.page.gohtml" then some "template: unexpected EOF" else none
    Execute := fun _ td => .ok ("error=" ++ td.Error ++ ";flash=" ++ td.Flash)
    ipFromContext := fun _ => "unknown" }

/-- A world whose session holds one-shot messages in the `"error"` and `"flash"` slots and
`sampleAdmin` in the `"user"` slot. -/
def flashWorld : World (List UserImage) :=
  { sampleWorld with
    session := ((sampleSession.Put "user" (SVal.user sampleAdmin)).Put "error"
      (SVal.str "invalid login")).Put "flash" (SVal.str "welcome") }

/-- A repository like `sampleRepo` whose image insertion always fails. -/
def noInsertRepo : DatabaseRepo (List UserImage) :=
  { sampleRepo with
    InsertUserImage := fun db _ => (.error "violates foreign key constraint", db) }

/-- A repository like `sampleRepo` whose lookup by id always fails. -/
def noGetRepo : DatabaseRepo (List UserImage) :=
  { sampleRepo with GetUser := fun db _ => (.error "sql: no rows in result set", db) }

/-! ## Forms -/

theorem errors_Add_length_ne_zero (e : errors) (field msg : String) :
    (errors.Add e field msg).length ≠ 0 := by
  cases e with
  | nil => simp [errors.Add]
  | cons kv rest =>
    obtain ⟨k, v⟩ := kv
    simp only [errors.Add]
    split_ifs <;> simp

theorem requireField_Data (f : Form) (field : String) :
    (f.requireField field).Data = f.Data := by
  unfold Form.requireField
  split_ifs <;> rfl

theorem requireField_Valid (f : Form) (field : String) :
    (f.requireField field).Valid = (f.Valid && decide (TrimSpace (f.Data.Get field) ≠ "")) := by
  unfold Form.requireField
  split_ifs with h
  · have := errors_Add_length_ne_zero f.Errors field "This field cannot be blank"
    simp [Form.Valid, h, this]
  · simp [h]

/-- The validation of the login form succeeds iff both posted fields are non-blank. -/
theorem loginForm_Valid (data : Values) :
    ((NewForm data).Required ["email", "password"]).Valid = true ↔
      TrimSpace (data.Get "email") ≠ "" ∧ TrimSpace (data.Get "password") ≠ "" := by
  simp only [Form.Required, List.foldl, requireField_Valid, requireField_Data]
  simp [NewForm, Form.Valid]

/-! ## The paths through `Login` -/

theorem Login_of_parse_error (app : application σ) (r : Request) (w : World σ) (err : String)
    (hparse : r.ParseForm = .error err) :
    Login app r w = (Outcome.response (http.Error "bad request" http.StatusBadRequest), w) := by
  simp [Login, hparse]

theorem Login_of_blank (app : application σ) (r : Request) (w : World σ) (pf : ParsedForm)
    (hparse : r.ParseForm = .ok pf)
    (hblank : TrimSpace (pf.PostForm.Get "email") = "" ∨
      TrimSpace (pf.PostForm.Get "password") = "") :
    Login app r w = (Outcome.response (http.Redirect "/" http.StatusSeeOther),
      w.Put "error" (SVal.str "invalid login credentials")) := by
  have hv : ((NewForm pf.PostForm).Required ["email", "password"]).Valid = false := by
    rw [Bool.eq_false_iff, Ne, loginForm_Valid]
    tauto
  simp [Login, hparse, hv]

theorem Login_of_lookup_error (app : application σ) (r : Request) (w : World σ) (pf : ParsedForm)
    (err : String) (hparse : r.ParseForm = .ok pf)
    (hemail : TrimSpace (pf.PostForm.Get "email") ≠ "")
    (hpassword : TrimSpace (pf.PostForm.Get "password") ≠ "")
    (hlookup : (app.DB.GetUserByEmail w.db (pf.Form.Get "email")).1 = .error err) :
    Login app r w = (Outcome.response (http.Redirect "/" http.StatusSeeOther),
      (w.GetUserByEmail app (pf.Form.Get "email")).2.Put "error" (SVal.str "invalid login")) := by
  have hv : ((NewForm pf.PostForm).Required ["email", "password"]).Valid = true :=
    (loginForm_Valid pf.PostForm).2 ⟨hemail, hpassword⟩
  simp [Login, hparse, hv, World.GetUserByEmail, hlookup]

theorem Login_of_mismatch (app : application σ) (r : Request) (w : World σ) (pf : ParsedForm)
    (u : User) (hparse : r.ParseForm = .ok pf)
    (hemail : TrimSpace (pf.PostForm.Get "email") ≠ "")
    (hpassword : TrimSpace (pf.PostForm.Get "password") ≠ "")
    (hlookup : (app.DB.GetUserByEmail w.db (pf.Form.Get "email")).1 = .ok u)
    (hbad : (app.PasswordMatches u (pf.Form.Get "password")).2 ≠ none ∨
      (app.PasswordMatches u (pf.Form.Get "password")).1 = false) :
    Login app r w = (Outcome.response (http.Redirect "/" http.StatusSeeOther),
      (w.GetUserByEmail app (pf.Form.Get "email")).2.Put "error" (SVal.str "invalid login")) := by
  have hv : ((NewForm pf.PostForm).Required ["email", "password"]).Valid = true :=
    (loginForm_Valid pf.PostForm).2 ⟨hemail, hpassword⟩
  rcases hpm : app.PasswordMatches u (pf.Form.Get "password") with ⟨valid, perr⟩
  rw [hpm] at hbad
  have hcond : (perr.isSome || !valid) = true := by
    rcases hbad with h | h
    · cases perr with
      | none => exact absurd rfl h
      | some _ => simp
    · simp only at h
      simp [h]
  simp [Login, hparse, hv, World.GetUserByEmail, hlookup, authenticate, hpm, hcond]

theorem Login_of_match (app : application σ) (r : Request) (w : World σ) (pf : ParsedForm)
    (u : User) (hparse : r.ParseForm = .ok pf)
    (hemail : TrimSpace (pf.PostForm.Get "email") ≠ "")
    (hpassword : TrimSpace (pf.PostForm.Get "password") ≠ "")
    (hlookup : (app.DB.GetUserByEmail w.db (pf.Form.Get "email")).1 = .ok u)
    (hmatch : app.PasswordMatches u (pf.Form.Get "password") = (true, none)) :
    Login app r w = (Outcome.response (http.Redirect "/user/profile" http.StatusSeeOther),
      World.Put (World.RenewToken app
        ((w.GetUserByEmail app (pf.Form.Get "email")).2.Put "user" (SVal.user u)))
        "flash message" (SVal.str "successfully logged in")) := by
  have hv : ((NewForm pf.PostForm).Required ["email", "password"]).Valid = true :=
    (loginForm_Valid pf.PostForm).2 ⟨hemail, hpassword⟩
  simp [Login, hparse, hv, World.GetUserByEmail, hlookup, authenticate, hmatch]

/-! ## The loops of `UploadFiles` -/

theorem uploadOne_ok (app : application σ) (dir : String) (header : FileHeader)
    (ups : List UploadedFile) (fs : FS) (hok : partError app dir header = none) :
    uploadOne app dir header ups fs
      = ((ups ++ [{ OriginalFileName := header.Filename,
                    FileSize := header.content.length }], none),
         FS.write fs (destination app dir header) header.content) := by
  unfold partError destination at hok
  unfold uploadOne FileHeader.content destination
  rcases ho : header.Open with e | infile
  · simp [ho] at hok
  · rw [ho] at hok
    rcases hc : app.createErr (app.Join dir header.Filename) with _ | e
    · rcases hcp : app.copyErr (app.Join dir header.Filename) infile with _ | ne
      · simp [hc, hcp]
      · simp [hc, hcp] at hok
    · simp [hc] at hok

theorem uploadOne_err (app : application σ) (dir : String) (header : FileHeader)
    (ups : List UploadedFile) (fs : FS) (err : String)
    (hbad : partError app dir header = some err) :
    (uploadOne app dir header ups fs).1 = ([], some err) := by
  unfold partError destination at hbad
  unfold uploadOne
  rcases ho : header.Open with e | infile
  · simp [ho] at hbad
    simp [hbad]
  · rw [ho] at hbad
    rcases hc : app.createErr (app.Join dir header.Filename) with _ | e
    · rcases hcp : app.copyErr (app.Join dir header.Filename) infile with _ | ne
      · simp [hc, hcp] at hbad
      · obtain ⟨n, e⟩ := ne
        simp [hc, hcp] at hbad
        simp [hc, hcp, hbad]
    · simp [hc] at hbad
      simp [hc, hbad]

theorem rangeHeaders_append (app : application σ) (dir : String) (xs ys : List FileHeader)
    (ups : List UploadedFile) (fs : FS) :
    rangeHeaders app dir (xs ++ ys) ups fs =
      match rangeHeaders app dir xs ups fs with
      | ((ups1, some err), fs1) => ((ups1, some err), fs1)
      | ((ups1, none), fs1) => rangeHeaders app dir ys ups1 fs1 := by
  induction xs generalizing ups fs with
  | nil => simp [rangeHeaders]
  | cons x xs ih =>
    simp only [List.cons_append, rangeHeaders]
    rcases hx : uploadOne app dir x ups fs with ⟨⟨ups1, _ | e⟩, fs1⟩
    · exact ih ups1 fs1
    · simp

/-- The nested loops visit the parts of the form in one sequence. -/
theorem rangeFields_eq_rangeHeaders (app : application σ) (dir : String)
    (fields : List (String × List FileHeader)) (ups : List UploadedFile) (fs : FS) :
    rangeFields app dir fields ups fs
      = rangeHeaders app dir (fields.flatMap Prod.snd) ups fs := by
  induction fields generalizing ups fs with
  | nil => simp [rangeFields, rangeHeaders]
  | cons f rest ih =>
    obtain ⟨name, headers⟩ := f
    simp only [rangeFields, List.flatMap_cons, rangeHeaders_append]
    rcases hx : rangeHeaders app dir headers ups fs with ⟨⟨ups1, _ | e⟩, fs1⟩
    · simp only [ih]
    · simp

theorem rangeHeaders_ok (app : application σ) (dir : String) (parts : List FileHeader)
    (ups : List UploadedFile) (fs : FS) (hok : ∀ h ∈ parts, partError app dir h = none) :
    rangeHeaders app dir parts ups fs
      = ((ups ++ parts.map (fun h => { OriginalFileName := h.Filename,
                                        FileSize := h.content.length }), none),
         writeParts app dir parts fs) := by
  induction parts generalizing ups fs with
  | nil => simp [rangeHeaders, writeParts]
  | cons x xs ih =>
    have hx : partError app dir x = none := hok x (List.mem_cons_self _ _)
    have hxs : ∀ h ∈ xs, partError app dir h = none :=
      fun h hh => hok h (List.mem_cons_of_mem _ hh)
    simp only [rangeHeaders, uploadOne_ok app dir x ups fs hx, ih _ _ hxs]
    simp [writeParts]

theorem uploadOne_fs_other (app : application σ) (dir : String) (header : FileHeader)
    (ups : List UploadedFile) (fs : FS) (p : String)
    (hp : destination app dir header ≠ p) :
    (uploadOne app dir header ups fs).2 p = fs p := by
  unfold destination at hp
  unfold uploadOne
  rcases ho : header.Open with e | infile
  · simp
  · rcases hc : app.createErr (app.Join dir header.Filename) with _ | e
    · rcases hcp : app.copyErr (app.Join dir header.Filename) infile with _ | ne
      · simp [hc, hcp, FS.write, Ne.symm hp]
      · simp [hc, hcp, FS.write, Ne.symm hp]
    · simp [hc]

theorem rangeHeaders_fail (app : application σ) (dir : String) (pre post : List FileHeader)
    (bad : FileHeader) (ups : List UploadedFile) (fs : FS) (err : String)
    (hpre : ∀ h ∈ pre, partError app dir h = none)
    (hbad : partError app dir bad = some err) :
    rangeHeaders app dir (pre ++ bad :: post) ups fs
      = (([], some err),
         (uploadOne app dir bad
            (ups ++ pre.map (fun h => { OriginalFileName := h.Filename,
                                         FileSize := h.content.length }))
            (writeParts app dir pre fs)).2) := by
  rw [rangeHeaders_append, rangeHeaders_ok app dir pre ups fs hpre]
  simp only [rangeHeaders]
  have h1 := uploadOne_err app dir bad
    (ups ++ pre.map (fun h => { OriginalFileName := h.Filename,
                                 FileSize := h.content.length }))
    (writeParts app dir pre fs) err hbad
  rcases hx : uploadOne app dir bad
    (ups ++ pre.map (fun h => { OriginalFileName := h.Filename,
                                 FileSize := h.content.length }))
    (writeParts app dir pre fs) with ⟨⟨ups1, oe⟩, fs1⟩
  rw [hx] at h1
  simp only [Prod.mk.injEq] at h1
  obtain ⟨h2, h3⟩ := h1
  subst h2 h3
  simp [hx]

theorem UploadFiles_parsed (app : application σ) (r : Request) (dir : String) (fs : FS)
    (form : MultipartForm) (hparse : r.ParseMultipartForm (5 * 1024 * 1024) = .ok form) :
    UploadFiles app r dir fs = rangeHeaders app dir form.parts [] fs := by
  have h5 : 1024 * 1024 * 5 = 5 * 1024 * 1024 := by norm_num
  simp only [UploadFiles, h5, hparse, rangeFields_eq_rangeHeaders, MultipartForm.parts]

/-! ## Claims on the login flow -/

/-- C1. A login request that parses and whose posted email or posted password is blank
after trimming makes `Login` answer with a 303 redirect to `/` and put a message in the
session's `"error"` slot; that `Put` is the only call it makes, so the repository is not
consulted and its state is unchanged. -/
theorem Login_blank_field (app : application σ) (r : Request) (w : World σ) (pf : ParsedForm)
    (hparse : r.ParseForm = .ok pf)
    (hblank : TrimSpace (pf.PostForm.Get "email") = "" ∨
      TrimSpace (pf.PostForm.Get "password") = "") :
    (Login app r w).1 = Outcome.response { Code := 303, Location := some "/", Body := "" } ∧
    (Login app r w).2.session.Get "error" = some (SVal.str "invalid login credentials") ∧
    (Login app r w).2.trace =
      w.trace ++ [Call.Put "error" (SVal.str "invalid login credentials")] ∧
    (∀ email, Call.GetUserByEmail email ∉ (Login app r w).2.callsSince w) ∧
    (Login app r w).2.db = w.db := by
  rw [Login_of_blank app r w pf hparse hblank]
  simp [World.Put, Session.Put, Session.Get, World.callsSince, http.Redirect,
    http.StatusSeeOther]

/-- Witness of C1: an email of two blanks. -/
theorem Login_blank_field_witness :
    TrimSpace ((loginForm "  " "secret").PostForm.Get "email") = "" ∧
    (Login sampleApp (loginRequest "  " "secret") sampleWorld).1
      = Outcome.response { Code := 303, Location := some "/", Body := "" } ∧
    (Login sampleApp (loginRequest "  " "secret") sampleWorld).2.trace
      = [Call.Put "error" (SVal.str "invalid login credentials")] :=
  have h := Login_blank_field sampleApp (loginRequest "  " "secret") sampleWorld
    (loginForm "  " "secret") rfl (Or.inl (by decide))
  ⟨by decide, h.1, h.2.2.1⟩

/-- C2. Enumeration safety: of two login requests with non-blank posted email and password,
one failing because `GetUserByEmail` returns an error and the other because
`PasswordMatches` reports an error or a mismatch for the user found, both leave the same
text, `"invalid login"`, in the session's `"error"` slot and both answer with a 303
redirect to `/`. -/
theorem Login_enumeration_safe (app : application σ) (r₁ r₂ : Request) (w₁ w₂ : World σ)
    (pf₁ pf₂ : ParsedForm) (err : String) (u : User)
    (hparse₁ : r₁.ParseForm = .ok pf₁) (hparse₂ : r₂.ParseForm = .ok pf₂)
    (hemail₁ : TrimSpace (pf₁.PostForm.Get "email") ≠ "")
    (hpassword₁ : TrimSpace (pf₁.PostForm.Get "password") ≠ "")
    (hemail₂ : TrimSpace (pf₂.PostForm.Get "email") ≠ "")
    (hpassword₂ : TrimSpace (pf₂.PostForm.Get "password") ≠ "")
    (hunknown : (app.DB.GetUserByEmail w₁.db (pf₁.Form.Get "email")).1 = .error err)
    (hfound : (app.DB.GetUserByEmail w₂.db (pf₂.Form.Get "email")).1 = .ok u)
    (hbad : (app.PasswordMatches u (pf₂.Form.Get "password")).2 ≠ none ∨
      (app.PasswordMatches u (pf₂.Form.Get "password")).1 = false) :
    (Login app r₁ w₁).2.session.Get "error" = some (SVal.str "invalid login") ∧
    (Login app r₂ w₂).2.session.Get "error" = some (SVal.str "invalid login") ∧
    (Login app r₁ w₁).1 = Outcome.response { Code := 303, Location := some "/", Body := "" } ∧
    (Login app r₂ w₂).1 = Outcome.response { Code := 303, Location := some "/", Body := "" } := by
  rw [Login_of_lookup_error app r₁ w₁ pf₁ err hparse₁ hemail₁ hpassword₁ hunknown,
    Login_of_mismatch app r₂ w₂ pf₂ u hparse₂ hemail₂ hpassword₂ hfound hbad]
  simp [World.Put, Session.Put, Session.Get, http.Redirect, http.StatusSeeOther]

/-- Witness of C2: an unknown email and a wrong password for a known one. -/
theorem Login_enumeration_safe_witness :
    (Login sampleApp (loginRequest "kicked@ass.com" "truth") sampleWorld).2.session.Get "error"
      = (Login sampleApp (loginRequest "admin@example.com" "imperium") sampleWorld).2.session.Get
          "error" ∧
    (Login sampleApp (loginRequest "kicked@ass.com" "truth") sampleWorld).1
      = (Login sampleApp (loginRequest "admin@example.com" "imperium") sampleWorld).1 :=
  have h := Login_enumeration_safe sampleApp (loginRequest "kicked@ass.com" "truth")
    (loginRequest "admin@example.com" "imperium") sampleWorld sampleWorld
    (loginForm "kicked@ass.com" "truth") (loginForm "admin@example.com" "imperium")
    "sql: no rows in result set" sampleAdmin rfl rfl (by decide) (by decide) (by decide)
    (by decide) rfl rfl (Or.inr (by decide))
  ⟨h.1.trans h.2.1.symm, h.2.2.1.trans h.2.2.2.symm⟩

/-- C3. A login request that parses, posts a non-blank email and password, whose email
`GetUserByEmail` finds and whose password matches, makes `Login` look the user up, store
that user in the session's `"user"` slot, then call `RenewToken`, then put the success
message, and answer with a 303 redirect to `/user/profile`. The token afterwards is the
one the store issued, which differs from the token before when the store issues a new
one. -/
theorem Login_success (app : application σ) (r : Request) (w : World σ) (pf : ParsedForm)
    (u : User) (t : String) (hparse : r.ParseForm = .ok pf)
    (hemail : TrimSpace (pf.PostForm.Get "email") ≠ "")
    (hpassword : TrimSpace (pf.PostForm.Get "password") ≠ "")
    (hlookup : (app.DB.GetUserByEmail w.db (pf.Form.Get "email")).1 = .ok u)
    (hmatch : app.PasswordMatches u (pf.Form.Get "password") = (true, none))
    (hissue : app.issueToken w.session.token = .ok t) (hnew : t ≠ w.session.token) :
    (Login app r w).1
      = Outcome.response { Code := 303, Location := some "/user/profile", Body := "" } ∧
    (Login app r w).2.session.Get "user" = some (SVal.user u) ∧
    (Login app r w).2.trace = w.trace ++
      [Call.GetUserByEmail (pf.Form.Get "email"), Call.Put "user" (SVal.user u),
       Call.RenewToken, Call.Put "flash message" (SVal.str "successfully logged in")] ∧
    (Login app r w).2.session.token = t ∧
    (Login app r w).2.session.token ≠ w.session.token := by
  rw [Login_of_match app r w pf u hparse hemail hpassword hlookup hmatch]
  simp [World.Put, World.RenewToken, World.GetUserByEmail, Session.Put, Session.Get,
    Session.RenewToken, hissue, hnew, http.Redirect, http.StatusSeeOther]

/-- Witness of C3: the administrator logs in. -/
theorem Login_success_witness :
    (Login sampleApp (loginRequest "admin@example.com" "secret") sampleWorld).1
      = Outcome.response { Code := 303, Location := some "/user/profile", Body := "" } ∧
    (Login sampleApp (loginRequest "admin@example.com" "secret") sampleWorld).2.session.Get
      "user" = some (SVal.user sampleAdmin) ∧
    (Login sampleApp (loginRequest "admin@example.com" "secret") sampleWorld).2.session.token
      = "t0+" :=
  have h := Login_success sampleApp (loginRequest "admin@example.com" "secret") sampleWorld
    (loginForm "admin@example.com" "secret") sampleAdmin "t0+" rfl (by decide) (by decide)
    rfl (by decide) rfl (by decide)
  ⟨h.1, h.2.1, h.2.2.2.1⟩

/-- C4. A failed login never authenticates: whenever `Login` does not end in the 303
redirect to `/user/profile`, the session's `"user"` slot and the token are what they were
before the call, and among the calls `Login` made there is no `RenewToken` and no `Put` on
the `"user"` slot. -/
theorem Login_failure_never_authenticates (app : application σ) (r : Request) (w : World σ)
    (hfail : (Login app r w).1
      ≠ Outcome.response { Code := 303, Location := some "/user/profile", Body := "" }) :
    (Login app r w).2.session.Get "user" = w.session.Get "user" ∧
    (Login app r w).2.session.token = w.session.token ∧
    w.trace <+: (Login app r w).2.trace ∧
    Call.RenewToken ∉ (Login app r w).2.callsSince w ∧
    ∀ v, Call.Put "user" v ∉ (Login app r w).2.callsSince w := by
  rcases hp : r.ParseForm with err | pf
  · rw [Login_of_parse_error app r w err hp]
    simp [World.callsSince]
  · by_cases hblank : TrimSpace (pf.PostForm.Get "email") = "" ∨
        TrimSpace (pf.PostForm.Get "password") = ""
    · rw [Login_of_blank app r w pf hp hblank]
      simp [World.Put, Session.Put, Session.Get, World.callsSince]
    · have hemail : TrimSpace (pf.PostForm.Get "email") ≠ "" := fun h => hblank (Or.inl h)
      have hpassword : TrimSpace (pf.PostForm.Get "password") ≠ "" :=
        fun h => hblank (Or.inr h)
      rcases hl : (app.DB.GetUserByEmail w.db (pf.Form.Get "email")).1 with err | u
      · rw [Login_of_lookup_error app r w pf err hp hemail hpassword hl]
        simp [World.Put, World.GetUserByEmail, Session.Put, Session.Get, World.callsSince]
      · by_cases hbad : (app.PasswordMatches u (pf.Form.Get "password")).2 ≠ none ∨
            (app.PasswordMatches u (pf.Form.Get "password")).1 = false
        · rw [Login_of_mismatch app r w pf u hp hemail hpassword hl hbad]
          simp [World.Put, World.GetUserByEmail, Session.Put, Session.Get, World.callsSince]
        · have hmatch : app.PasswordMatches u (pf.Form.Get "password") = (true, none) := by
            rcases hpm : app.PasswordMatches u (pf.Form.Get "password") with ⟨valid, perr⟩
            rw [hpm] at hbad
            cases valid <;> cases perr <;> simp at hbad ⊢
          exact absurd (by rw [Login_of_match app r w pf u hp hemail hpassword hl hmatch]; rfl)
            hfail

/-- Witness of C4: a wrong password. -/
theorem Login_failure_never_authenticates_witness :
    (Login sampleApp (loginRequest "admin@example.com" "imperium") sampleWorld).2.session.Get
      "user" = none ∧
    Call.RenewToken ∉
      (Login sampleApp (loginRequest "admin@example.com" "imperium") sampleWorld).2.callsSince
        sampleWorld :=
  have h := Login_failure_never_authenticates sampleApp
    (loginRequest "admin@example.com" "imperium") sampleWorld (by decide)
  ⟨h.1, h.2.2.2.1⟩

/-- C5. When the form of a login request fails to parse, `Login` answers with status 400
and leaves the world as it was: no session slot is written, the token is not renewed, and
no call is made on the repository. -/
theorem Login_malformed_form (app : application σ) (r : Request) (w : World σ) (err : String)
    (hparse : r.ParseForm = .error err) :
    (Login app r w).1
      = Outcome.response { Code := 400, Location := none, Body := "bad request\n" } ∧
    (Login app r w).2 = w ∧
    (∀ key, (Login app r w).2.session.Get key = w.session.Get key) ∧
    (Login app r w).2.session.token = w.session.token ∧
    (Login app r w).2.callsSince w = [] := by
  rw [Login_of_parse_error app r w err hparse]
  simp [World.callsSince, http.Error, http.StatusBadRequest]

/-- Witness of C5: a body that does not parse. -/
theorem Login_malformed_form_witness :
    malformedRequest.ParseForm = .error "invalid URL escape" ∧
    (Login sampleApp malformedRequest sampleWorld).1
      = Outcome.response { Code := 400, Location := none, Body := "bad request\n" } ∧
    (Login sampleApp malformedRequest sampleWorld).2 = sampleWorld :=
  have h := Login_malformed_form sampleApp malformedRequest sampleWorld "invalid URL escape" rfl
  ⟨rfl, h.1, h.2.1⟩

/-! ## The auth gate -/

/-- C6. A request served by a route of the `/user` subtree: when the session has no
`"user"` slot the answer is a 307 redirect to `/` and the world is unchanged, whatever the
handlers are, so the downstream handler is not run; when the slot holds a user the answer
is the downstream handler's, applied to the same request and world. The routes of the
subtree are the profile page and the upload. -/
theorem auth_gate (handlers : HandlerName → Handler σ) (r : Request) (w : World σ)
    (rt : Route) (hroute : routes.find? (fun rt => rt.accepts r) = some rt)
    (hunder : rt.underUser = true) :
    (w.session.Exists "user" = false →
      ServeHTTP handlers r w
        = (Outcome.response { Code := 307, Location := some "/", Body := "" }, w)) ∧
    (∀ u, w.session.Get "user" = some (SVal.user u) →
      ServeHTTP handlers r w = handlers rt.handler r w) ∧
    (rt.handler = HandlerName.Profile ∨ rt.handler = HandlerName.UploadProfilePic) := by
  have hmem : rt ∈ routes := List.mem_of_find?_eq_some hroute
  have hserve : rt.serve handlers = auth (handlers rt.handler) ∧
      (rt.handler = HandlerName.Profile ∨ rt.handler = HandlerName.UploadProfilePic) := by
    simp only [routes, Route.mount, List.map, List.mem_append, List.mem_cons,
      List.mem_singleton, List.not_mem_nil, or_false, List.nil_append] at hmem
    rcases hmem with ((h | h) | (h | h)) | h <;> subst h
    · exact absurd hunder (by decide)
    · exact absurd hunder (by decide)
    · exact ⟨rfl, Or.inl rfl⟩
    · exact ⟨rfl, Or.inr rfl⟩
    · exact absurd hunder (by decide)
  refine ⟨fun hno => ?_, fun u hu => ?_, hserve.2⟩
  · have hget : w.session.Get "user" = none := by
      simpa [Session.Exists, Session.Get] using hno
    simp [ServeHTTP, hroute, hserve.1, auth, hget, http.Redirect, http.StatusTemporaryRedirect]
  · simp [ServeHTTP, hroute, hserve.1, auth, hu]

/-- Witness of C6: the profile page requested with a fresh session. -/
theorem auth_gate_witness :
    ServeHTTP (fun _ => Login sampleApp) profileRequest sampleWorld
      = (Outcome.response { Code := 307, Location := some "/", Body := "" }, sampleWorld) :=
  (auth_gate (fun _ => Login sampleApp) profileRequest sampleWorld
    { method := "GET", pattern := "/user/profile", middlewares := [Middleware.auth],
      handler := HandlerName.Profile } (by decide) (by decide)).1 rfl

/-! ## Claims on the upload ingester -/

/-- What `UploadFiles` does in general when the first parts are ingested and the next one
fails to open, to be created or to be copied: it returns that error together with a nil
sequence, whatever descriptors it had built. It stops there: the result and the file
system it leaves are the same whatever parts follow the failing one, and outside the
failing part's destination the file system is the one the ingested parts left. -/
theorem UploadFiles_part_failure (app : application σ) (r : Request) (dir : String) (fs : FS)
    (form : MultipartForm) (pre post : List FileHeader) (bad : FileHeader) (err : String)
    (hparse : r.ParseMultipartForm (5 * 1024 * 1024) = .ok form)
    (hparts : form.parts = pre ++ bad :: post)
    (hpre : ∀ h ∈ pre, partError app dir h = none)
    (hbad : partError app dir bad = some err) :
    (UploadFiles app r dir fs).1 = ([], some err) ∧
    (∀ (r' : Request) (form' : MultipartForm) (post' : List FileHeader),
      r'.ParseMultipartForm (5 * 1024 * 1024) = .ok form' →
      form'.parts = pre ++ bad :: post' →
      UploadFiles app r' dir fs = UploadFiles app r dir fs) ∧
    (∀ p, destination app dir bad ≠ p →
      (UploadFiles app r dir fs).2 p = writeParts app dir pre fs p) := by
  rw [UploadFiles_parsed app r dir fs form hparse, hparts,
    rangeHeaders_fail app dir pre post bad [] fs err hpre hbad]
  refine ⟨rfl, fun r' form' post' hparse' hparts' => ?_, fun p hp => ?_⟩
  · rw [UploadFiles_parsed app r' dir fs form' hparse', hparts',
      rangeHeaders_fail app dir pre post' bad [] fs err hpre hbad]
  · exact uploadOne_fs_other app dir bad _ _ p hp

/-- C8, the code on a failing part. The upload directory holds a directory `thumbs`. Of
three file parts the first is ingested and the second, sent as `thumbs`, cannot be
created. `UploadFiles` returns the error, and with it an empty sequence, not the
descriptor of the first part which it had built; the first file has been written and the
third part has not been processed. -/
theorem UploadFiles_failure_returns_nil :
    partError thumbsApp "./static/img" (filePart "a.png" [1]) = none ∧
    partError thumbsApp "./static/img" (filePart "thumbs" [2])
      = some "open ./static/img/thumbs: is a directory" ∧
    (UploadFiles thumbsApp
        (uploadRequest [filePart "a.png" [1], filePart "thumbs" [2], filePart "c.png" [3]])
        "./static/img" (fun _ => none)).1
      = ([], some "open ./static/img/thumbs: is a directory") ∧
    (UploadFiles thumbsApp
        (uploadRequest [filePart "a.png" [1], filePart "thumbs" [2], filePart "c.png" [3]])
        "./static/img" (fun _ => none)).1.1
      ≠ [{ OriginalFileName := "a.png", FileSize := 1 }] ∧
    (UploadFiles thumbsApp
        (uploadRequest [filePart "a.png" [1], filePart "thumbs" [2], filePart "c.png" [3]])
        "./static/img" (fun _ => none)).2 "./static/img/a.png" = some [1] ∧
    (UploadFiles thumbsApp
        (uploadRequest [filePart "a.png" [1], filePart "thumbs" [2], filePart "c.png" [3]])
        "./static/img" (fun _ => none)).2 "./static/img/c.png" = none := by
  decide

/-- C9. When the multipart body fails to parse under the ceiling of `5 * 1024 * 1024`
bytes, `UploadFiles` returns the size-limit error, whose text is the parse error's text
followed by the size-limit message, returns no descriptor, and leaves the file system as
it was: no part is processed. -/
theorem UploadFiles_parse_failure (app : application σ) (r : Request) (dir : String) (fs : FS)
    (err : String) (hparse : r.ParseMultipartForm (5 * 1024 * 1024) = .error err) :
    UploadFiles app r dir fs
      = (([], some (err ++ ": the file is to big for upload. Max size is 5Mb")), fs) := by
  have h5 : 1024 * 1024 * 5 = 5 * 1024 * 1024 := by norm_num
  simp only [UploadFiles, h5, hparse]

/-- Witness of C9: a body over the ceiling. -/
theorem UploadFiles_parse_failure_witness :
    (UploadFiles sampleApp oversizedRequest "./static/img" (fun _ => none)).1
      = ([], some
          "multipart: message too large: the file is to big for upload. Max size is 5Mb") :=
  congrArg Prod.fst
    (UploadFiles_parse_failure sampleApp oversizedRequest "./static/img" (fun _ => none)
      "multipart: message too large" rfl)

/-! ## Claims on the profile picture upload -/

/-- C10. When the session's `"user"` slot holds a user `u`, `UploadFiles` returns at least
one descriptor and no error, and `InsertUserImage` and `GetUser` succeed, then
`UploadProfilePic` makes exactly these calls: one `InsertUserImage` of an image whose
`UserID` is `u.ID` and whose `FileName` is the first descriptor's original file name,
`GetUser(u.ID)`, and a `Put` of the user fetched into the `"user"` slot; it answers with a
303 redirect to `/user/profile`. -/
theorem UploadProfilePic_success (app : application σ) (r : Request) (w : World σ)
    (u updatedUser : User) (file0 : UploadedFile) (rest : List UploadedFile) (id : Int)
    (huser : w.session.Get "user" = some (SVal.user u))
    (hfiles : (UploadFiles app r uploadPath w.fs).1 = (file0 :: rest, none))
    (hinsert : (app.DB.InsertUserImage w.db
        { ID := 0, UserID := u.ID, FileName := file0.OriginalFileName,
          CreatedAt := 0, UpdatedAt := 0 }).1 = .ok id)
    (hget : (app.DB.GetUser (app.DB.InsertUserImage w.db
        { ID := 0, UserID := u.ID, FileName := file0.OriginalFileName,
          CreatedAt := 0, UpdatedAt := 0 }).2 u.ID).1 = .ok updatedUser) :
    (UploadProfilePic app r w).1
      = Outcome.response { Code := 303, Location := some "/user/profile", Body := "" } ∧
    (UploadProfilePic app r w).2.trace = w.trace ++
      [Call.InsertUserImage { ID := 0, UserID := u.ID, FileName := file0.OriginalFileName,
                              CreatedAt := 0, UpdatedAt := 0 },
       Call.GetUser u.ID, Call.Put "user" (SVal.user updatedUser)] ∧
    (UploadProfilePic app r w).2.session.Get "user" = some (SVal.user updatedUser) ∧
    (UploadProfilePic app r w).2.fs = (UploadFiles app r uploadPath w.fs).2 := by
  rcases hU : UploadFiles app r uploadPath w.fs with ⟨⟨files, oerr⟩, fs1⟩
  rw [hU] at hfiles
  simp only [Prod.mk.injEq] at hfiles
  obtain ⟨hf, he⟩ := hfiles
  subst hf he
  have huser1 : w.session.values "user" = some (SVal.user u) := huser
  simp [UploadProfilePic, hU, huser1, World.InsertUserImage, hinsert, World.GetUser, hget,
    World.Put, Session.Put, Session.Get, http.Redirect, http.StatusSeeOther]

/-- Witness of C10: the administrator uploads one file. -/
theorem UploadProfilePic_success_witness :
    (UploadProfilePic sampleApp (uploadRequest [filePart "img.png" [1, 2, 3]])
        loggedInWorld).1
      = Outcome.response { Code := 303, Location := some "/user/profile", Body := "" } ∧
    (UploadProfilePic sampleApp (uploadRequest [filePart "img.png" [1, 2, 3]])
        loggedInWorld).2.db
      = [{ ID := 0, UserID := 1, FileName := "img.png", CreatedAt := 0, UpdatedAt := 0 }] ∧
    (UploadProfilePic sampleApp (uploadRequest [filePart "img.png" [1, 2, 3]])
        loggedInWorld).2.trace
      = [Call.InsertUserImage
           { ID := 0, UserID := 1, FileName := "img.png", CreatedAt := 0, UpdatedAt := 0 },
         Call.GetUser 1, Call.Put "user" (SVal.user sampleAdmin)] :=
  have h := UploadProfilePic_success sampleApp (uploadRequest [filePart "img.png" [1, 2, 3]])
    loggedInWorld sampleAdmin sampleAdmin { OriginalFileName := "img.png", FileSize := 3 } []
    1 rfl (by decide) rfl rfl
  ⟨h.1, by decide, h.2.1⟩

/-- C11. When `UploadFiles` returns an error, `UploadProfilePic` answers with status 400
and that error's text, without a `Location`, and changes nothing but the file system,
which it leaves as `UploadFiles` left it: no call is made, so `InsertUserImage` is not
called, and no file is removed. When `InsertUserImage`, or after it `GetUser`, returns an
error, the answer is again status 400 with that error's text and no `Location`, the
session is what it was, and the calls made are the insertion, respectively the insertion
and the lookup. -/
theorem UploadProfilePic_failure (app : application σ) (r : Request) (w : World σ) :
    (∀ err, (UploadFiles app r uploadPath w.fs).1.2 = some err →
      UploadProfilePic app r w
        = (Outcome.response { Code := 400, Location := none, Body := err ++ "\n" },
           { w with fs := (UploadFiles app r uploadPath w.fs).2 })) ∧
    (∀ u file0 rest err,
      w.session.Get "user" = some (SVal.user u) →
      (UploadFiles app r uploadPath w.fs).1 = (file0 :: rest, none) →
      (app.DB.InsertUserImage w.db
        { ID := 0, UserID := u.ID, FileName := file0.OriginalFileName,
          CreatedAt := 0, UpdatedAt := 0 }).1 = .error err →
      (UploadProfilePic app r w).1
        = Outcome.response { Code := 400, Location := none, Body := err ++ "\n" } ∧
      (UploadProfilePic app r w).2.session = w.session ∧
      (UploadProfilePic app r w).2.trace = w.trace ++
        [Call.InsertUserImage { ID := 0, UserID := u.ID, FileName := file0.OriginalFileName,
                                CreatedAt := 0, UpdatedAt := 0 }] ∧
      (UploadProfilePic app r w).2.fs = (UploadFiles app r uploadPath w.fs).2) ∧
    (∀ u file0 rest id err,
      w.session.Get "user" = some (SVal.user u) →
      (UploadFiles app r uploadPath w.fs).1 = (file0 :: rest, none) →
      (app.DB.InsertUserImage w.db
        { ID := 0, UserID := u.ID, FileName := file0.OriginalFileName,
          CreatedAt := 0, UpdatedAt := 0 }).1 = .ok id →
      (app.DB.GetUser (app.DB.InsertUserImage w.db
        { ID := 0, UserID := u.ID, FileName := file0.OriginalFileName,
          CreatedAt := 0, UpdatedAt := 0 }).2 u.ID).1 = .error err →
      (UploadProfilePic app r w).1
        = Outcome.response { Code := 400, Location := none, Body := err ++ "\n" } ∧
      (UploadProfilePic app r w).2.session = w.session ∧
      (UploadProfilePic app r w).2.trace = w.trace ++
        [Call.InsertUserImage { ID := 0, UserID := u.ID, FileName := file0.OriginalFileName,
                                CreatedAt := 0, UpdatedAt := 0 },
         Call.GetUser u.ID] ∧
      (UploadProfilePic app r w).2.fs = (UploadFiles app r uploadPath w.fs).2) := by
  refine ⟨fun err herr => ?_, fun u file0 rest err huser hfiles hinsert => ?_,
    fun u file0 rest id err huser hfiles hinsert hget => ?_⟩
  · rcases hU : UploadFiles app r uploadPath w.fs with ⟨⟨files, oerr⟩, fs1⟩
    rw [hU] at herr
    simp only at herr
    subst herr
    simp [UploadProfilePic, hU, http.Error, http.StatusBadRequest]
  · rcases hU : UploadFiles app r uploadPath w.fs with ⟨⟨files, oerr⟩, fs1⟩
    rw [hU] at hfiles
    simp only [Prod.mk.injEq] at hfiles
    obtain ⟨hf, he⟩ := hfiles
    subst hf he
    have huser1 : w.session.values "user" = some (SVal.user u) := huser
    simp [UploadProfilePic, hU, huser1, World.InsertUserImage, hinsert, Session.Get,
      http.Error, http.StatusBadRequest]
  · rcases hU : UploadFiles app r uploadPath w.fs with ⟨⟨files, oerr⟩, fs1⟩
    rw [hU] at hfiles
    simp only [Prod.mk.injEq] at hfiles
    obtain ⟨hf, he⟩ := hfiles
    subst hf he
    have huser1 : w.session.values "user" = some (SVal.user u) := huser
    simp [UploadProfilePic, hU, huser1, World.InsertUserImage, hinsert, World.GetUser, hget,
      Session.Get, http.Error, http.StatusBadRequest]

/-- Witness of C11: an upload whose second part does not open, an upload whose image
insertion fails, and an upload after which the user is not found. -/
theorem UploadProfilePic_failure_witness :
    ((UploadProfilePic sampleApp
        (uploadRequest [filePart "a.png" [1], brokenPart "b.png"]) loggedInWorld).1
      = Outcome.response
          { Code := 400, Location := none, Body := "open: no such file or directory\n" } ∧
     (UploadProfilePic sampleApp
        (uploadRequest [filePart "a.png" [1], brokenPart "b.png"]) loggedInWorld).2.trace = [] ∧
     (UploadProfilePic sampleApp
        (uploadRequest [filePart "a.png" [1], brokenPart "b.png"]) loggedInWorld).2.fs
        "./static/img/a.png" = some [1]) ∧
    (UploadProfilePic { sampleApp with DB := noInsertRepo }
        (uploadRequest [filePart "a.png" [1]]) loggedInWorld).1
      = Outcome.response
          { Code := 400, Location := none, Body := "violates foreign key constraint\n" } ∧
    (UploadProfilePic { sampleApp with DB := noGetRepo }
        (uploadRequest [filePart "a.png" [1]]) loggedInWorld).1
      = Outcome.response
          { Code := 400, Location := none, Body := "sql: no rows in result set\n" } :=
  have h1 := (UploadProfilePic_failure sampleApp
    (uploadRequest [filePart "a.png" [1], brokenPart "b.png"]) loggedInWorld).1
    "open: no such file or directory" (by decide)
  have h2 := (UploadProfilePic_failure { sampleApp with DB := noInsertRepo }
    (uploadRequest [filePart "a.png" [1]]) loggedInWorld).2.1
    sampleAdmin { OriginalFileName := "a.png", FileSize := 1 } []
    "violates foreign key constraint" rfl (by decide) rfl
  have h3 := (UploadProfilePic_failure { sampleApp with DB := noGetRepo }
    (uploadRequest [filePart "a.png" [1]]) loggedInWorld).2.2
    sampleAdmin { OriginalFileName := "a.png", FileSize := 1 } [] 1
    "sql: no rows in result set" rfl (by decide) rfl rfl
  ⟨⟨congrArg Prod.fst h1, by rw [h1]; rfl, by rw [h1]; decide⟩, h2.1, h3.1⟩

/-! ## Claims on forms -/

theorem Required_Data (f : Form) (fields : List String) :
    (f.Required fields).Data = f.Data := by
  unfold Form.Required
  induction fields generalizing f with
  | nil => rfl
  | cons x xs ih => rw [List.foldl_cons, ih, requireField_Data]

theorem Required_Valid (f : Form) (fields : List String) :
    (f.Required fields).Valid
      = (f.Valid && fields.all fun field => TrimSpace (f.Data.Get field) != "") := by
  unfold Form.Required
  induction fields generalizing f with
  | nil => simp
  | cons x xs ih =>
    rw [List.foldl_cons, ih, requireField_Valid, requireField_Data]
    have hx : decide (TrimSpace (f.Data.Get x) ≠ "") = (TrimSpace (f.Data.Get x) != "") := by
      by_cases h : TrimSpace (f.Data.Get x) = "" <;> simp [h]
    rw [hx, List.all_cons, Bool.and_assoc]

theorem Check_Data (f : Form) (ok : Bool) (key message : String) :
    (f.Check ok key message).Data = f.Data := by
  unfold Form.Check
  split_ifs <;> rfl

theorem Check_Valid (f : Form) (ok : Bool) (key message : String) :
    (f.Check ok key message).Valid = (f.Valid && ok) := by
  unfold Form.Check
  cases ok with
  | false =>
    have := errors_Add_length_ne_zero f.Errors key message
    simp [Form.Valid, this]
  | true => simp

theorem call_Data (f : Form) (c : FormCall) : (f.call c).Data = f.Data := by
  cases c with
  | Required fields => exact Required_Data f fields
  | Check ok key message => exact Check_Data f ok key message

theorem call_Valid (f : Form) (c : FormCall) :
    (f.call c).Valid = (f.Valid && c.passes f.Data) := by
  cases c with
  | Required fields => exact Required_Valid f fields
  | Check ok key message => exact Check_Valid f ok key message

theorem calls_Valid (f : Form) (cs : List FormCall) :
    (f.calls cs).Valid = (f.Valid && cs.all fun c => c.passes f.Data) := by
  unfold Form.calls
  induction cs generalizing f with
  | nil => simp
  | cons c cs ih =>
    rw [List.foldl_cons, ih, call_Valid, call_Data]
    simp [Bool.and_assoc]

/-- C12. For a form created by `NewForm` from any data and any sequence of `Required` and
`Check` calls on it, `Valid()` is true exactly when every `Required` call named only
fields whose first value is not blank after trimming and every `Check` call was made with
`ok = true`. In particular a fresh form is valid, also one created from nil data;
`Required("a", "b", "c")` on nil data makes the form invalid; and on any data it leaves
the form valid exactly when the three fields are not blank. -/
theorem Form_Valid_iff (data : Values) (cs : List FormCall) :
    ((NewForm data).calls cs).Valid = (cs.all fun c => c.passes data) ∧
    (NewForm data).Valid = true ∧
    (NewForm Values.nil).Valid = true ∧
    ((NewForm Values.nil).Required ["a", "b", "c"]).Valid = false ∧
    ((NewForm data).Required ["a", "b", "c"]).Valid
      = (TrimSpace (data.Get "a") != "" && TrimSpace (data.Get "b") != ""
          && TrimSpace (data.Get "c") != "") := by
  have hnew : ∀ d, (NewForm d).Valid = true := fun d => rfl
  refine ⟨?_, hnew data, hnew _, ?_, ?_⟩
  · rw [calls_Valid, hnew]
    simp [NewForm]
  · rw [Required_Valid, hnew]
    decide
  · rw [Required_Valid, hnew]
    simp [NewForm, Bool.and_assoc]

/-! ## Claims on the messages of the login flow and on rendering -/

theorem execute_td (tpl : Templates) (t : String) (td : TemplateData) (w : World σ) :
    (execute tpl t td w).td = td ∧ (execute tpl t td w).world = w := by
  unfold execute
  cases tpl.Execute t td <;> exact ⟨rfl, rfl⟩

/-- What `render` leaves when the template parses: the two messages popped into the
template data, and the world after the two pops. -/
theorem render_parsed (tpl : Templates) (r : Request) (w : World σ) (t : String)
    (td : TemplateData) (hparse : tpl.ParseFS t = none) :
    (render tpl r w t td).td.Error = (w.PopString "error").1 ∧
    (render tpl r w t td).td.Flash = ((w.PopString "error").2.PopString "flash").1 ∧
    (render tpl r w t td).world = ((w.PopString "error").2.PopString "flash").2 := by
  unfold render
  simp only [hparse]
  split_ifs
  · split
    · simp [execute_td]
    · exact ⟨rfl, rfl, rfl⟩
  · simp [execute_td]

/-- C13, as amended. `Login` has two failure messages: a blank required field puts
`"invalid login credentials"` in the session's `"error"` slot, while a failed repository
lookup and a password that does not match both put `"invalid login"` there. -/
theorem Login_failure_messages (app : application σ) (r₀ r₁ r₂ : Request)
    (w₀ w₁ w₂ : World σ) (pf₀ pf₁ pf₂ : ParsedForm) (err : String) (u : User)
    (hparse₀ : r₀.ParseForm = .ok pf₀) (hparse₁ : r₁.ParseForm = .ok pf₁)
    (hparse₂ : r₂.ParseForm = .ok pf₂)
    (hblank : TrimSpace (pf₀.PostForm.Get "email") = "" ∨
      TrimSpace (pf₀.PostForm.Get "password") = "")
    (hemail₁ : TrimSpace (pf₁.PostForm.Get "email") ≠ "")
    (hpassword₁ : TrimSpace (pf₁.PostForm.Get "password") ≠ "")
    (hemail₂ : TrimSpace (pf₂.PostForm.Get "email") ≠ "")
    (hpassword₂ : TrimSpace (pf₂.PostForm.Get "password") ≠ "")
    (hunknown : (app.DB.GetUserByEmail w₁.db (pf₁.Form.Get "email")).1 = .error err)
    (hfound : (app.DB.GetUserByEmail w₂.db (pf₂.Form.Get "email")).1 = .ok u)
    (hbad : (app.PasswordMatches u (pf₂.Form.Get "password")).2 ≠ none ∨
      (app.PasswordMatches u (pf₂.Form.Get "password")).1 = false) :
    (Login app r₀ w₀).2.session.Get "error" = some (SVal.str "invalid login credentials") ∧
    (Login app r₁ w₁).2.session.Get "error" = some (SVal.str "invalid login") ∧
    (Login app r₂ w₂).2.session.Get "error" = some (SVal.str "invalid login") ∧
    (Login app r₀ w₀).2.session.Get "error" ≠ (Login app r₁ w₁).2.session.Get "error" := by
  rw [Login_of_blank app r₀ w₀ pf₀ hparse₀ hblank,
    Login_of_lookup_error app r₁ w₁ pf₁ err hparse₁ hemail₁ hpassword₁ hunknown,
    Login_of_mismatch app r₂ w₂ pf₂ u hparse₂ hemail₂ hpassword₂ hfound hbad]
  simp [World.Put, Session.Put, Session.Get]

/-- Witness of C13: both fields blank, an unknown email, and a wrong password. -/
theorem Login_failure_messages_witness :
    (Login sampleApp (loginRequest "" "") sampleWorld).2.session.Get "error"
      = some (SVal.str "invalid login credentials") ∧
    (Login sampleApp (loginRequest "kicked@ass.com" "truth") sampleWorld).2.session.Get "error"
      = some (SVal.str "invalid login") ∧
    (Login sampleApp (loginRequest "admin@example.com" "imperium") sampleWorld).2.session.Get
      "error" = some (SVal.str "invalid login") :=
  have h := Login_failure_messages sampleApp (loginRequest "" "")
    (loginRequest "kicked@ass.com" "truth") (loginRequest "admin@example.com" "imperium")
    sampleWorld sampleWorld sampleWorld (loginForm "" "") (loginForm "kicked@ass.com" "truth")
    (loginForm "admin@example.com" "imperium") "sql: no rows in result set" sampleAdmin
    rfl rfl rfl (Or.inl (by decide)) (by decide) (by decide) (by decide) (by decide) rfl rfl
    (Or.inr (by decide))
  ⟨h.1, h.2.1, h.2.2.1⟩

/-- C13, counterexample. The text left in the `"error"` slot by a login with blank fields
is not the text left by a login with an unknown email. -/
theorem Login_blank_message_differs :
    TrimSpace ((loginForm "" "").PostForm.Get "email") = "" ∧
    (Login sampleApp (loginRequest "" "") sampleWorld).2.session.Get "error"
      = some (SVal.str "invalid login credentials") ∧
    (Login sampleApp (loginRequest "kicked@ass.com" "truth") sampleWorld).2.session.Get "error"
      = some (SVal.str "invalid login") ∧
    (Login sampleApp (loginRequest "" "") sampleWorld).2.session.Get "error"
      ≠ (Login sampleApp (loginRequest "kicked@ass.com" "truth") sampleWorld).2.session.Get
          "error" := by
  decide

/-- C14, the code at a successful login. `Login` answers with the redirect to the profile
page and puts the success message in the slot `"flash message"`; the slot `"flash"`, the
one `render` pops, stays empty, so the render that follows reports an empty `Flash`, and
the message is still in its slot afterwards. -/
theorem Login_success_message_never_rendered :
    (Login sampleApp (loginRequest "admin@example.com" "secret") sampleWorld).1
      = Outcome.response { Code := 303, Location := some "/user/profile", Body := "" } ∧
    (Login sampleApp (loginRequest "admin@example.com" "secret") sampleWorld).2.session.Get
      "flash" = none ∧
    (Login sampleApp (loginRequest "admin@example.com" "secret") sampleWorld).2.session.Get
      "flash message" = some (SVal.str "successfully logged in") ∧
    (render sampleTemplates profileRequest
      (Login sampleApp (loginRequest "admin@example.com" "secret") sampleWorld).2
      "profile.page.gohtml" TemplateData.empty).td.Flash = "" ∧
    (render sampleTemplates profileRequest
      (Login sampleApp (loginRequest "admin@example.com" "secret") sampleWorld).2
      "profile.page.gohtml" TemplateData.empty).world.session.Get "flash message"
      = some (SVal.str "successfully logged in") := by
  decide

/-- C15. One-shot messages: a `render` whose template parses sets the `Error` and the
`Flash` of the template data to what the session's `"error"` and `"flash"` slots held as
strings, the empty string when the slot is absent, and leaves both slots absent; every
other slot and the token are unchanged; and a second `render` on the resulting world
yields an empty `Error` and an empty `Flash`. -/
theorem render_one_shot (tpl : Templates) (r : Request) (w : World σ) (t : String)
    (td : TemplateData) (hparse : tpl.ParseFS t = none) :
    (render tpl r w t td).td.Error = w.session.GetString "error" ∧
    (render tpl r w t td).td.Flash = w.session.GetString "flash" ∧
    (∀ x, w.session.Get "error" = some (SVal.str x) → (render tpl r w t td).td.Error = x) ∧
    (∀ x, w.session.Get "flash" = some (SVal.str x) → (render tpl r w t td).td.Flash = x) ∧
    (w.session.Get "error" = none → (render tpl r w t td).td.Error = "") ∧
    (w.session.Get "flash" = none → (render tpl r w t td).td.Flash = "") ∧
    (render tpl r w t td).world.session.Get "error" = none ∧
    (render tpl r w t td).world.session.Get "flash" = none ∧
    (∀ key, key ≠ "error" → key ≠ "flash" →
      (render tpl r w t td).world.session.Get key = w.session.Get key) ∧
    (render tpl r w t td).world.session.token = w.session.token ∧
    (∀ r' t' td', tpl.ParseFS t' = none →
      (render tpl r' (render tpl r w t td).world t' td').td.Error = "" ∧
      (render tpl r' (render tpl r w t td).world t' td').td.Flash = "") := by
  obtain ⟨hE, hF, hW⟩ := render_parsed tpl r w t td hparse
  have hE' : (render tpl r w t td).td.Error = w.session.GetString "error" := by
    rw [hE]; rfl
  have hF' : (render tpl r w t td).td.Flash = w.session.GetString "flash" := by
    rw [hF]
    simp [World.PopString, Session.PopString, Session.Remove, Session.GetString]
  have hne : (render tpl r w t td).world.session.Get "error" = none := by
    rw [hW]
    simp [World.PopString, Session.PopString, Session.Remove, Session.Get]
  have hnf : (render tpl r w t td).world.session.Get "flash" = none := by
    rw [hW]
    simp [World.PopString, Session.PopString, Session.Remove, Session.Get]
  refine ⟨hE', hF', fun x hx => ?_, fun x hx => ?_, fun hx => ?_, fun hx => ?_, hne, hnf,
    fun key hk1 hk2 => ?_, ?_, fun r' t' td' hparse' => ?_⟩
  · rw [hE']
    simp only [Session.Get] at hx
    simp [Session.GetString, hx]
  · rw [hF']
    simp only [Session.Get] at hx
    simp [Session.GetString, hx]
  · rw [hE']
    simp only [Session.Get] at hx
    simp [Session.GetString, hx]
  · rw [hF']
    simp only [Session.Get] at hx
    simp [Session.GetString, hx]
  · rw [hW]
    simp [World.PopString, Session.PopString, Session.Remove, Session.Get, hk1, hk2]
  · rw [hW]
    simp [World.PopString, Session.PopString, Session.Remove]
  · obtain ⟨hE2, hF2, -⟩ := render_parsed tpl r' (render tpl r w t td).world t' td' hparse'
    simp only [Session.Get] at hne hnf
    refine ⟨?_, ?_⟩
    · rw [hE2]
      simp [World.PopString, Session.PopString, hne]
    · rw [hF2]
      simp [World.PopString, Session.PopString, Session.Remove, hnf]

/-- Witness of C15: a session with both messages set. -/
theorem render_one_shot_witness :
    (render sampleTemplates profileRequest flashWorld "profile.page.gohtml"
      TemplateData.empty).td.Error = "invalid login" ∧
    (render sampleTemplates profileRequest flashWorld "profile.page.gohtml"
      TemplateData.empty).td.Flash = "welcome" ∧
    (render sampleTemplates profileRequest flashWorld "profile.page.gohtml"
      TemplateData.empty).world.session.Get "error" = none :=
  have h := render_one_shot sampleTemplates profileRequest flashWorld "profile.page.gohtml"
    TemplateData.empty (by decide)
  ⟨h.2.2.1 "invalid login" (by decide), h.2.2.2.1 "welcome" (by decide), h.2.2.2.2.2.2.1⟩

/-- C16, the code on an upload without file parts. The session holds a user and
`UploadFiles` returns an empty sequence and no error; `UploadProfilePic` then ends in the
run-time panic of the index `files[0]`, not in a response. -/
theorem UploadProfilePic_no_file_panics :
    loggedInWorld.session.Get "user" = some (SVal.user sampleAdmin) ∧
    (UploadFiles sampleApp emptyUploadRequest uploadPath loggedInWorld.fs).1 = ([], none) ∧
    (UploadProfilePic sampleApp emptyUploadRequest loggedInWorld).1
      = Outcome.panic "runtime error: index out of range [0] with length 0" := by
  decide

end WebApp
